import Mathlib

/- Verification of the analytics engine of the print-portfolio-analytics
repository against its specification.

Shallow embedding conventions:
- Python floats are modelled as rationals (all engine arithmetic on the
  claim-relevant paths is field arithmetic, comparisons, min/max and
  percentile interpolation, which are exact on the inputs considered);
- a pandas row / dict is modelled as a structure of Option fields: a read
  through dict.get(key, default) becomes Option.getD, and a read through
  row[key] (which raises KeyError key when the key is absent) becomes
  dictIndex, returning an Except value carrying the missing key name;
- the only non-determinism, np.random.normal(mean, std, n_simulations), is
  passed in as an explicit list argument: for a fixed seed it is a fixed
  list of length n_simulations, so theorems about a fixed seed quantify
  over that list, carrying the length fact as a hypothesis;
- the outputs of scipy.stats.linregress and np.std in the velocity
  forecaster are irrational reals in general, so they enter the embedding
  as parameters (slope, intercept, r_value, std_velocity); theorems
  quantify over them, assuming only 0 <= std_velocity, which holds of any
  standard deviation. -/

namespace PortfolioAnalytics

/-- Arithmetic mean of a list of rationals, as np.mean: sum divided by
length.  On the empty list this yields 0 (division by zero in ℚ); the
source only takes a mean of an empty collection in
simulate_capacity_allocation when the sprint table is empty, a case no
claim depends on. -/
def mean (l : List ℚ) : ℚ := l.sum / l.length

/-- Python dict/row access row[key]: the stored value when the key is
present, a KeyError naming the key when it is absent. -/
def dictIndex {α : Type} (v : Option α) (key : String) : Except String α :=
  match v with
  | some x => Except.ok x
  | none => Except.error key

/-- An initiative row as consumed by the prioritization and risk modules
(src/utils/prioritization.py, src/predictive_models.py).  Every field is
optional, mirroring the loosely-typed row: the source decides per access
whether a missing field raises (row[key]) or falls back (row.get). -/
structure Initiative where
  initiative_id : Option String
  name : Option String
  impact_score : Option ℚ
  effort_score : Option ℚ
  strategic_category : Option String
  roi_estimate : Option String
  status : Option String
  total_story_points : Option ℚ
  completed_story_points : Option ℚ
  target_sprint : Option ℚ

/-- STRATEGIC_WEIGHTS table of src/utils/prioritization.py, read through
dict.get(category, 1.0). -/
def STRATEGIC_WEIGHTS (category : String) : ℚ :=
  if category = "Revenue Growth" then 3/2
  else if category = "Customer Experience" then 13/10
  else if category = "Cost Reduction" then 6/5
  else if category = "Process Improvement" then 1
  else if category = "Technical Excellence" then 11/10
  else 1

/-- ROI_MULTIPLIERS table of src/utils/prioritization.py, read through
dict.get(roi, 1.0). -/
def ROI_MULTIPLIERS (roi : String) : ℚ :=
  if roi = "High" then 13/10
  else if roi = "Medium" then 1
  else if roi = "Low" then 7/10
  else 1

/-- calculate_priority_score of src/utils/prioritization.py.  The two
row[key] reads raise KeyError (here: an Except.error naming the field) when
the field is missing; strategic_category and roi_estimate are read through
.get with defaults. -/
def calculate_priority_score (initiative : Initiative) : Except String ℚ := do
  let impact ← dictIndex initiative.impact_score "impact_score"
  let effort ← dictIndex initiative.effort_score "effort_score"
  if effort = 0 then
    return 0
  let base_score := impact / effort
  let strategic_category := initiative.strategic_category.getD "Process Improvement"
  let strategic_multiplier := STRATEGIC_WEIGHTS strategic_category
  let roi_estimate := initiative.roi_estimate.getD "Medium"
  let roi_multiplier := ROI_MULTIPLIERS roi_estimate
  return base_score * strategic_multiplier * roi_multiplier

/-- Tier assignment performed by add_priority_scores via
pd.cut(score, bins=[0, 1.5, 2.5, inf], labels=[Low, Medium, High]).
pd.cut forms the right-closed intervals (0, 1.5], (1.5, 2.5], (2.5, inf):
a value outside every bin (in particular a score of exactly 0, the left
edge of the first bin) receives no label (NaN), modelled as none. -/
def priorityTier (score : ℚ) : Option String :=
  if 0 < score ∧ score ≤ 3/2 then some "Low"
  else if 3/2 < score ∧ score ≤ 5/2 then some "Medium"
  else if 5/2 < score then some "High"
  else none

/-- One output row of add_priority_scores: the derived priority columns. -/
structure PriorityRecord where
  priority_score : ℚ
  priority_rank : ℕ
  priority_tier : Option String

/-- add_priority_scores of src/utils/prioritization.py: per-row priority
score, dense rank descending (rank 1 for the highest distinct score), and
pd.cut tier. -/
def add_priority_scores (initiatives : List Initiative) :
    Except String (List PriorityRecord) := do
  let scores ← initiatives.mapM calculate_priority_score
  let distinct := scores.dedup
  return scores.map (fun s =>
    { priority_score := s
      priority_rank := (distinct.filter (fun t => s < t)).length + 1
      priority_tier := priorityTier s })

/-- An initiative row as consumed by the quadrant / portfolio-health
functions, which read impact_score, effort_score and status as always
present DataFrame columns. -/
structure PortfolioInitiative where
  impact_score : ℚ
  effort_score : ℚ
  status : String

/-- categorize_quadrant of src/utils/prioritization.py. -/
def categorize_quadrant (initiative : PortfolioInitiative) : String :=
  if 6 < initiative.impact_score ∧ initiative.effort_score ≤ 5 then "Quick Wins"
  else if 6 < initiative.impact_score ∧ 5 < initiative.effort_score then "Major Projects"
  else if initiative.impact_score ≤ 6 ∧ initiative.effort_score ≤ 5 then "Fill-ins"
  else "Time Sinks"

/-- Result shape of calculate_portfolio_health_score. -/
structure PortfolioHealth where
  health_score : ℚ
  quick_wins_ratio : ℚ
  time_sinks_ratio : ℚ
  completion_rate : ℚ
  active_count : ℕ
  completed_count : ℕ
  deprioritized_count : ℕ

/-- calculate_portfolio_health_score of src/utils/prioritization.py,
including its final multiplication of the weighted sum by 100. -/
def calculate_portfolio_health_score (initiatives : List PortfolioInitiative) :
    PortfolioHealth :=
  let total_initiatives : ℕ := initiatives.length
  let quick_wins_count : ℕ :=
    (initiatives.filter (fun i => categorize_quadrant i = "Quick Wins")).length
  let time_sinks_count : ℕ :=
    (initiatives.filter (fun i => categorize_quadrant i = "Time Sinks")).length
  let quick_wins_ratio : ℚ :=
    if 0 < total_initiatives then (quick_wins_count : ℚ) / (total_initiatives : ℚ) else 0
  let time_sinks_ratio : ℚ :=
    if 0 < total_initiatives then (time_sinks_count : ℚ) / (total_initiatives : ℚ) else 0
  let completed_count : ℕ := (initiatives.filter (fun i => i.status = "Completed")).length
  let active_count : ℕ := (initiatives.filter (fun i => i.status = "Active")).length
  let deprioritized_count : ℕ :=
    (initiatives.filter (fun i => i.status = "Deprioritized")).length
  let completion_rate : ℚ :=
    if 0 < total_initiatives then (completed_count : ℚ) / (total_initiatives : ℚ) else 0
  let health_score : ℚ :=
    ((quick_wins_ratio * 30) + ((1 - time_sinks_ratio) * 20) + (completion_rate * 30) +
      (if 0 < total_initiatives then
        (1 - (deprioritized_count : ℚ) / (total_initiatives : ℚ)) * 20 else 0)) * 100
  { health_score := health_score
    quick_wins_ratio := quick_wins_ratio * 100
    time_sinks_ratio := time_sinks_ratio * 100
    completion_rate := completion_rate * 100
    active_count := active_count
    completed_count := completed_count
    deprioritized_count := deprioritized_count }

/-- Modelled from the spec: the portfolio_health formula as the spec (and
claim C1) state it, health = 100 x [0.30 qw + 0.20 (1 - ts) + 0.30 cr +
0.20 (1 - dp)], each ratio over the total initiative count.  Used only to
exhibit the divergence from the source formula. -/
def specPortfolioHealthFormula (initiatives : List PortfolioInitiative) : ℚ :=
  let total : ℚ := initiatives.length
  let qw : ℚ := (initiatives.filter (fun i => categorize_quadrant i = "Quick Wins")).length
  let ts : ℚ := (initiatives.filter (fun i => categorize_quadrant i = "Time Sinks")).length
  let cc : ℚ := (initiatives.filter (fun i => i.status = "Completed")).length
  let dc : ℚ := (initiatives.filter (fun i => i.status = "Deprioritized")).length
  if 0 < total then
    100 * ((3/10) * (qw / total) + (1/5) * (1 - ts / total) +
      (3/10) * (cc / total) + (1/5) * (1 - dc / total))
  else 0

/-- FACTOR 1 block of calculate_initiative_risk_score
(src/predictive_models.py): capacity risk, clamped at 1, saturating at 80
percent of projected capacity, 1.0 when no capacity is available. -/
def capacity_risk_factor (remaining_points capacity_available : ℚ) : ℚ :=
  if 0 < capacity_available then
    min 1 ((remaining_points / capacity_available) / (4/5))
  else 1

/-- FACTOR 2 block: volatility risk from the coefficient of variation,
clamped at 1, saturating at 15 percent CV, 0.5 when avg velocity is 0. -/
def volatility_risk_factor (avg_velocity velocity_std : ℚ) : ℚ :=
  if 0 < avg_velocity then
    min 1 ((velocity_std / avg_velocity) / (3/20))
  else 1/2

/-- FACTOR 3 block: utilization risk, a fixed step function of team
utilization. -/
def utilization_risk_factor (team_utilization : ℚ) : ℚ :=
  if 21/20 < team_utilization then 9/10
  else if 19/20 < team_utilization then 1/2
  else if 7/10 < team_utilization then 1/5
  else 2/5

/-- FACTOR 4 block: progress risk; heuristic steps for Active initiatives,
0.1 flat for other non-terminal statuses, 0.5 when total points is 0. -/
def progress_risk_factor (status : String)
    (total_points completed_points sprints_available : ℚ) : ℚ :=
  if 0 < total_points then
    let completion_pct := completed_points / total_points
    if status = "Active" then
      if sprints_available < 3 ∧ completion_pct < 1/2 then 4/5
      else if completion_pct < 3/10 then 3/5
      else 1/5
    else 1/10
  else 1/2

/-- The four sub-factor scores of a risk assessment. -/
structure RiskFactors where
  capacity_risk : ℚ
  volatility_risk : ℚ
  utilization_risk : ℚ
  progress_risk : ℚ

/-- Result shape of calculate_initiative_risk_score.  The terminal-status
branch returns an empty factors dict and omits the remaining_points /
sprints_available / capacity_available keys: those are modelled as none. -/
structure RiskAssessment where
  risk_score : ℚ
  risk_level : String
  factors : Option RiskFactors
  remaining_points : Option ℚ
  sprints_available : Option ℚ
  capacity_available : Option ℚ
  recommendation : String

/-- calculate_initiative_risk_score of src/predictive_models.py.  The four
initiative fields are read through dict.get with the defaults of the
source (0, 0, current_sprint + 10, Backlog); the function therefore never
raises on a missing field. -/
def calculate_initiative_risk_score (initiative : Initiative)
    (current_sprint avg_velocity velocity_std team_utilization : ℚ) :
    RiskAssessment :=
  let total_points := initiative.total_story_points.getD 0
  let completed_points := initiative.completed_story_points.getD 0
  let target_sprint := initiative.target_sprint.getD (current_sprint + 10)
  let status := initiative.status.getD "Backlog"
  if status = "Completed" ∨ status = "Deprioritized" then
    { risk_score := 0
      risk_level := "None"
      factors := none
      remaining_points := none
      sprints_available := none
      capacity_available := none
      recommendation := "No action needed" }
  else
    let remaining_points := max 0 (total_points - completed_points)
    let sprints_available := max 1 (target_sprint - current_sprint)
    let capacity_available := avg_velocity * sprints_available
    let capacity_risk := capacity_risk_factor remaining_points capacity_available
    let volatility_risk := volatility_risk_factor avg_velocity velocity_std
    let utilization_risk := utilization_risk_factor team_utilization
    let progress_risk :=
      progress_risk_factor status total_points completed_points sprints_available
    let risk_score := capacity_risk * (7/20) + volatility_risk * (1/4) +
      utilization_risk * (1/4) + progress_risk * (3/20)
    let level_and_rec : String × String :=
      if risk_score < 3/10 then
        ("Low", "No action needed - on track for delivery")
      else if risk_score < 3/5 then
        ("Medium", "Monitor closely - may need resource adjustment or scope review")
      else if 7/10 < capacity_risk then
        ("High", "High risk - consider descoping, extending timeline, or adding resources")
      else
        ("High", "High risk - immediate intervention needed")
    { risk_score := risk_score
      risk_level := level_and_rec.1
      factors := some
        { capacity_risk := capacity_risk
          volatility_risk := volatility_risk
          utilization_risk := utilization_risk
          progress_risk := progress_risk }
      remaining_points := some remaining_points
      sprints_available := some sprints_available
      capacity_available := some capacity_available
      recommendation := level_and_rec.2 }

/-- The record with the silent dict.get defaults of
calculate_initiative_risk_score filled in for its four optional fields. -/
def fillRiskDefaults (initiative : Initiative) (current_sprint : ℚ) : Initiative :=
  { initiative with
    total_story_points := some (initiative.total_story_points.getD 0)
    completed_story_points := some (initiative.completed_story_points.getD 0)
    target_sprint := some (initiative.target_sprint.getD (current_sprint + 10))
    status := some (initiative.status.getD "Backlog") }

/-- np.percentile with the default linear interpolation, over a sorted
copy of the sample.  Undefined (NaN) in numpy on an empty sample; 0
stands in for that case, which no claim reaches. -/
def percentile (sample : List ℚ) (q : ℚ) : ℚ :=
  let sorted := sample.mergeSort (fun a b => decide (a ≤ b))
  let n := sorted.length
  let pos := q * ((n : ℚ) - 1) / 100
  let low_index := (⌊pos⌋).toNat
  let fr := pos - (⌊pos⌋ : ℚ)
  let lo := sorted.getD low_index 0
  let hi := sorted.getD (low_index + 1) lo
  lo + fr * (hi - lo)

/-- Result shape of predict_sprint_completion_probability.  The fallback
branch omits the median_velocity and committed_points keys: modelled as
none. -/
structure CompletionForecast where
  probability : ℚ
  expected_velocity : ℚ
  median_velocity : Option ℚ
  confidence_interval_10 : ℚ
  confidence_interval_90 : ℚ
  simulated_velocities : List ℚ
  committed_points : Option ℚ

/-- predict_sprint_completion_probability of src/predictive_models.py.
raw_normal_sample stands for the output of
np.random.normal(mean, std, n_simulations): for a fixed seed it is a fixed
list whose length numpy guarantees to be n_simulations; theorems carry that
length fact as a hypothesis.  The source clips the draws at 0 with
np.maximum and counts the draws at or above the committed points. -/
def predict_sprint_completion_probability (committed_points : ℚ)
    (historical_velocities raw_normal_sample : List ℚ) (n_simulations : ℕ) :
    CompletionForecast :=
  if historical_velocities.length < 2 then
    { probability := 1/2
      expected_velocity := committed_points
      median_velocity := none
      confidence_interval_10 := committed_points
      confidence_interval_90 := committed_points
      simulated_velocities := []
      committed_points := none }
  else
    let mean_velocity := mean historical_velocities
    let simulated_velocities := raw_normal_sample.map (fun v => max v 0)
    let successful_completions :=
      simulated_velocities.countP (fun v => decide (committed_points ≤ v))
    let probability := (successful_completions : ℚ) / (n_simulations : ℚ)
    { probability := probability
      expected_velocity := mean_velocity
      median_velocity := some (percentile simulated_velocities 50)
      confidence_interval_10 := percentile simulated_velocities 10
      confidence_interval_90 := percentile simulated_velocities 90
      simulated_velocities := simulated_velocities
      committed_points := some committed_points }

/-- Result shape of forecast_velocity_next_n_sprints.  The short-history
branch omits the avg_velocity and trend_slope keys: modelled as none. -/
structure VelocityForecast where
  forecast : List ℚ
  lower_bound : List ℚ
  upper_bound : List ℚ
  avg_velocity : Option ℚ
  trend_slope : Option ℚ

/-- forecast_velocity_next_n_sprints of src/predictive_models.py.  slope,
intercept and r_value stand for the outputs of scipy.stats.linregress on
the last five (sprint_number, velocity) pairs, and std_velocity for np.std
of the last five velocities: irrational reals in general, so they enter as
parameters over which the theorems quantify (assuming only
0 <= std_velocity).  The short-history branch below them does not use
them. -/
def forecast_velocity_next_n_sprints (velocities sprint_numbers : List ℚ)
    (slope intercept r_value std_velocity : ℚ) (n_sprints : ℕ) :
    VelocityForecast :=
  if velocities.length < 3 then
    let avg := if 0 < velocities.length then mean velocities else 40
    { forecast := List.replicate n_sprints avg
      lower_bound := List.replicate n_sprints (avg * (4/5))
      upper_bound := List.replicate n_sprints (avg * (6/5))
      avg_velocity := none
      trend_slope := none }
  else
    let recent_velocities := velocities.drop (velocities.length - 5)
    let moving_avg := mean recent_velocities
    let last_sprint := sprint_numbers.getLastD 0
    let rows := (List.range n_sprints).map (fun j : ℕ =>
      let future_sprint := last_sprint + ((j : ℚ) + 1)
      let trend_forecast := slope * future_sprint + intercept
      let predicted_velocity :=
        if 1/2 < |r_value| then (7/10) * trend_forecast + (3/10) * moving_avg
        else (3/10) * trend_forecast + (7/10) * moving_avg
      let predicted_velocity := max 20 (min 60 predicted_velocity)
      (predicted_velocity,
        max 15 (predicted_velocity - (3/2) * std_velocity),
        min 70 (predicted_velocity + (3/2) * std_velocity)))
    { forecast := rows.map (fun r => r.1)
      lower_bound := rows.map (fun r => r.2.1)
      upper_bound := rows.map (fun r => r.2.2)
      avg_velocity := some moving_avg
      trend_slope := some slope }

/-- A row of the pending-initiatives table inside
simulate_capacity_allocation, after the priority score and the
remaining_points column have been computed. -/
structure PendingRow where
  initiative_id : String
  name : String
  remaining_points : ℚ
  priority_score : ℚ

/-- One element of the allocated list built by simulate_capacity_allocation. -/
structure AllocationEntry where
  initiative_id : String
  name : String
  points_allocated : ℚ
  priority_score : ℚ
  fits_in_capacity : Bool

/-- The dict appended when an initiative fits entirely. -/
def fullEntry (r : PendingRow) : AllocationEntry :=
  { initiative_id := r.initiative_id
    name := r.name
    points_allocated := r.remaining_points
    priority_score := r.priority_score
    fits_in_capacity := true }

/-- The dict appended when an initiative is partially allocated. -/
def overflowEntry (r : PendingRow) (points : ℚ) : AllocationEntry :=
  { initiative_id := r.initiative_id
    name := r.name
    points_allocated := points
    priority_score := r.priority_score
    fits_in_capacity := false }

/-- The allocation loop of simulate_capacity_allocation, walking the rows
in their (already sorted) order: a row whose remaining points keep
capacity_used within available_capacity is appended as a full entry; a row
that does not fit is appended as a partial entry of the positive leftover
budget and the loop breaks; when the leftover budget is not positive the
row is skipped and the loop continues (the break sits inside the
points_available > 0 branch in the source).  Returns the allocated list and
the final capacity_used. -/
def allocateWalk : List PendingRow → ℚ → ℚ → List AllocationEntry × ℚ
  | [], _, capacity_used => ([], capacity_used)
  | initiative :: rest, available_capacity, capacity_used =>
    let remaining := initiative.remaining_points
    if capacity_used + remaining ≤ available_capacity then
      let tail := allocateWalk rest available_capacity (capacity_used + remaining)
      (fullEntry initiative :: tail.1, tail.2)
    else
      let points_available := available_capacity - capacity_used
      if 0 < points_available then
        ([overflowEntry initiative points_available], available_capacity)
      else
        allocateWalk rest available_capacity capacity_used

/-- The running value of capacity_used after each loop iteration of
allocateWalk that is reached (a skipped row repeats the current value;
after a partial allocation the loop breaks at available_capacity). -/
def capacityUsedTrace : List PendingRow → ℚ → ℚ → List ℚ
  | [], _, _ => []
  | initiative :: rest, available_capacity, capacity_used =>
    let remaining := initiative.remaining_points
    if capacity_used + remaining ≤ available_capacity then
      (capacity_used + remaining) ::
        capacityUsedTrace rest available_capacity (capacity_used + remaining)
    else if 0 < available_capacity - capacity_used then
      [available_capacity]
    else
      capacity_used :: capacityUsedTrace rest available_capacity capacity_used

/-- Total points allocated over an allocation list. -/
def allocatedPointsSum (entries : List AllocationEntry) : ℚ :=
  (entries.map (fun e => e.points_allocated)).sum

/-- Insertion step for the descending sort on priority_score. -/
def insertByScoreDesc (r : PendingRow) : List PendingRow → List PendingRow
  | [] => [r]
  | x :: xs =>
    if x.priority_score ≤ r.priority_score then r :: x :: xs
    else x :: insertByScoreDesc r xs

/-- sort_values(priority_score, descending) of the pending table.  The
source sorts with pandas (unstable quicksort); the order among equal
scores is unspecified there, and no claim depends on it. -/
def sortByScoreDesc : List PendingRow → List PendingRow
  | [] => []
  | x :: xs => insertByScoreDesc x (sortByScoreDesc xs)

/-- Result shape of simulate_capacity_allocation. -/
structure AllocationPlan where
  available_capacity : ℚ
  capacity_used : ℚ
  capacity_utilization : ℚ
  allocated_initiatives : List AllocationEntry
  initiatives_fully_allocated : ℕ

/-- simulate_capacity_allocation of src/utils/prioritization.py: average
the last three velocities into the future capacity budget, keep the Active
and Backlog initiatives, score and sort them by priority descending,
compute each remaining_points column, and walk the sorted list with
allocateWalk. -/
def simulate_capacity_allocation (initiatives : List Initiative)
    (velocities : List ℚ) (future_sprints : ℕ) :
    Except String AllocationPlan := do
  let avg_velocity := mean (velocities.drop (velocities.length - 3))
  let available_capacity := avg_velocity * (future_sprints : ℚ)
  let pending := initiatives.filter
    (fun i => i.status = some "Active" ∨ i.status = some "Backlog")
  let rows ← pending.mapM (fun i => do
    let score ← calculate_priority_score i
    let iid ← dictIndex i.initiative_id "initiative_id"
    let nm ← dictIndex i.name "name"
    let total ← dictIndex i.total_story_points "total_story_points"
    let completed ← dictIndex i.completed_story_points "completed_story_points"
    pure ({ initiative_id := iid
            name := nm
            remaining_points := total - completed
            priority_score := score } : PendingRow))
  let sorted := sortByScoreDesc rows
  let walk := allocateWalk sorted available_capacity 0
  let capacity_used := walk.2
  return { available_capacity := available_capacity
           capacity_used := capacity_used
           capacity_utilization :=
             if 0 < available_capacity then capacity_used / available_capacity * 100
             else 0
           allocated_initiatives := walk.1
           initiatives_fully_allocated :=
             (walk.1.filter (fun e => e.fits_in_capacity)).length }

/-- Modelled from the spec: the capacity walk as the amended claim C6 words
it.  An initiative whose remaining points fit within the remaining budget
(available minus used) is fully allocated; an initiative that does not fit
while the remaining budget is positive is partially allocated up to that
budget and the walk stops; an initiative that does not fit while the
remaining budget is zero or negative allocates nothing and the walk
continues with the later initiatives. -/
def specFirstFitWalk : List PendingRow → ℚ → ℚ → List AllocationEntry × ℚ
  | [], _, used => ([], used)
  | initiative :: rest, available, used =>
    let budget := available - used
    if initiative.remaining_points ≤ budget then
      let tail := specFirstFitWalk rest available (used + initiative.remaining_points)
      (fullEntry initiative :: tail.1, tail.2)
    else if 0 < budget then
      ([overflowEntry initiative budget], available)
    else
      specFirstFitWalk rest available used

/-- Record used against claim C2: impact and effort present, the four
fields named by the claim (total_story_points, completed_story_points,
target_sprint, status) all missing. -/
def c2MissingFieldsRecord : Initiative :=
  { initiative_id := some "INIT-077"
    name := some "Data platform migration"
    impact_score := some 8
    effort_score := some 4
    strategic_category := none
    roi_estimate := none
    status := none
    total_story_points := none
    completed_story_points := none
    target_sprint := none }

/-- Record with every field missing, used to witness the amended C2. -/
def c2NoImpactRecord : Initiative :=
  { initiative_id := none
    name := none
    impact_score := none
    effort_score := none
    strategic_category := none
    roi_estimate := none
    status := none
    total_story_points := none
    completed_story_points := none
    target_sprint := none }

/-- Concrete Active initiative used to witness C4. -/
def c4ActiveRecord : Initiative :=
  { initiative_id := some "INIT-001"
    name := some "Checkout revamp"
    impact_score := some 9
    effort_score := some 3
    strategic_category := some "Revenue Growth"
    roi_estimate := some "High"
    status := some "Active"
    total_story_points := some 50
    completed_story_points := some 10
    target_sprint := some 5 }

/-- Pending initiatives used against claim C5: the second one has
completed_story_points above total_story_points (representable, per the
data model, since the inequality is not enforced), so its remaining points
are negative. -/
def c5OverCompletedInitiatives : List Initiative :=
  [{ initiative_id := some "INIT-A"
     name := some "Initiative A"
     impact_score := some 8
     effort_score := some 2
     strategic_category := none
     roi_estimate := none
     status := some "Active"
     total_story_points := some 5
     completed_story_points := some 0
     target_sprint := none },
   { initiative_id := some "INIT-B"
     name := some "Initiative B"
     impact_score := some 4
     effort_score := some 4
     strategic_category := none
     roi_estimate := none
     status := some "Active"
     total_story_points := some 0
     completed_story_points := some 3
     target_sprint := none }]

/-- The sorted pending rows that simulate_capacity_allocation builds from
c5OverCompletedInitiatives with velocities [10, 10, 10] and one future
sprint. -/
def c5SortedRows : List PendingRow :=
  [{ initiative_id := "INIT-A", name := "Initiative A"
     remaining_points := 5, priority_score := 4 },
   { initiative_id := "INIT-B", name := "Initiative B"
     remaining_points := -3, priority_score := 1 }]

/-- The plan simulate_capacity_allocation returns on
c5OverCompletedInitiatives: the second allocation is for -3 points and
capacity_used falls from 5 to 2. -/
def c5Plan : AllocationPlan :=
  { available_capacity := 10
    capacity_used := 2
    capacity_utilization := 20
    allocated_initiatives :=
      [{ initiative_id := "INIT-A", name := "Initiative A"
         points_allocated := 5, priority_score := 4, fits_in_capacity := true },
       { initiative_id := "INIT-B", name := "Initiative B"
         points_allocated := -3, priority_score := 1, fits_in_capacity := true }]
    initiatives_fully_allocated := 2 }

/-- Single pending row used to witness the amended C5. -/
def c5WitnessRow : PendingRow :=
  { initiative_id := "INIT-W", name := "Witness initiative"
    remaining_points := 5, priority_score := 4 }

/-- Pending initiatives used against claim C6: the first consumes the
budget exactly, the second does not fit, the third has zero remaining
points. -/
def c6ExactFitInitiatives : List Initiative :=
  [{ initiative_id := some "INIT-A"
     name := some "Alpha"
     impact_score := some 9
     effort_score := some 3
     strategic_category := none
     roi_estimate := none
     status := some "Active"
     total_story_points := some 10
     completed_story_points := some 0
     target_sprint := none },
   { initiative_id := some "INIT-B"
     name := some "Beta"
     impact_score := some 8
     effort_score := some 4
     strategic_category := none
     roi_estimate := none
     status := some "Active"
     total_story_points := some 5
     completed_story_points := some 0
     target_sprint := none },
   { initiative_id := some "INIT-C"
     name := some "Gamma"
     impact_score := some 5
     effort_score := some 5
     strategic_category := none
     roi_estimate := none
     status := some "Active"
     total_story_points := some 0
     completed_story_points := some 0
     target_sprint := none }]

/-- The plan simulate_capacity_allocation returns on
c6ExactFitInitiatives: Beta, the first initiative that does not fit, gets
no entry and no break happens, so Gamma is still considered and allocated
after it. -/
def c6Plan : AllocationPlan :=
  { available_capacity := 10
    capacity_used := 10
    capacity_utilization := 100
    allocated_initiatives :=
      [{ initiative_id := "INIT-A", name := "Alpha"
         points_allocated := 10, priority_score := 3, fits_in_capacity := true },
       { initiative_id := "INIT-C", name := "Gamma"
         points_allocated := 0, priority_score := 1, fits_in_capacity := true }]
    initiatives_fully_allocated := 2 }

/-- The priority record that add_priority_scores derives from
c8WitnessRecord. -/
def c8WitnessOutRecord : PriorityRecord :=
  { priority_score := 6, priority_rank := 1, priority_tier := some "High" }

/-- Record whose effort_score is 0, so that its priority score is exactly
0, used against claim C8. -/
def c8ZeroEffortRecord : Initiative :=
  { initiative_id := some "INIT-Z"
    name := some "Zero effort"
    impact_score := some 5
    effort_score := some 0
    strategic_category := none
    roi_estimate := none
    status := some "Backlog"
    total_story_points := some 8
    completed_story_points := some 0
    target_sprint := none }

/-- Record with priority score (8/2) x 1.5 = 6, used to witness the
amended C8. -/
def c8WitnessRecord : Initiative :=
  { initiative_id := some "INIT-H"
    name := some "High tier"
    impact_score := some 8
    effort_score := some 2
    strategic_category := some "Revenue Growth"
    roi_estimate := none
    status := some "Backlog"
    total_story_points := some 20
    completed_story_points := some 0
    target_sprint := none }

/-- C1: the code does not satisfy the claim.  For the one-initiative
portfolio below (impact 7, effort 3, hence a Quick Win, status Completed)
every ratio in the claimed formula is at its optimum, so the claimed
health score is 100 x (0.30 + 0.20 + 0.30 + 0.20) = 100, the top of the
claimed [0,100] range, as the spec-side formula confirms; but the source
multiplies the weighted sum of the already-percentage terms (weights
30/20/30/20) by a further 100 and returns 10000, contradicting the
"(0-100)" comment above the formula in the source. -/
theorem c1_health_score_scale_code_bug :
    (calculate_portfolio_health_score
        [{ impact_score := 7, effort_score := 3, status := "Completed" }]).health_score = 10000
    ∧ specPortfolioHealthFormula
        [{ impact_score := 7, effort_score := 3, status := "Completed" }] = 100 := by
  constructor <;>
  · simp [calculate_portfolio_health_score, specPortfolioHealthFormula,
      categorize_quadrant, List.filter_cons]
    norm_num [show ¬ (("Quick Wins" : String) = "Time Sinks") from by decide]

/-- C2 counterexample: the record is missing all of total_story_points,
completed_story_points, target_sprint and status, yet the risk scorer does
not fail with an error naming a missing field: it silently substitutes the
defaults 0, 0, current_sprint + 10 and Backlog (its result is identical to
the result on the record with those defaults filled in) and returns an
ordinary Medium assessment. -/
theorem c2_risk_score_silent_default_counterexample :
    calculate_initiative_risk_score c2MissingFieldsRecord 5 10 2 (17/20)
      = calculate_initiative_risk_score (fillRiskDefaults c2MissingFieldsRecord 5) 5 10 2 (17/20)
    ∧ (calculate_initiative_risk_score c2MissingFieldsRecord 5 10 2 (17/20)).risk_level
      = "Medium" := by
  constructor
  · rfl
  · simp [calculate_initiative_risk_score, c2MissingFieldsRecord,
      capacity_risk_factor, volatility_risk_factor, utilization_risk_factor,
      progress_risk_factor]
    norm_num

/-- C2 (amended): the priority scorer fails fast with an error naming the
missing field (a missing impact_score yields the error "impact_score"; a
missing effort_score, with impact_score present, yields the error
"effort_score"); the risk scorer, by contrast, never fails on a missing
field: on every record it returns exactly the assessment of the record
with the silent defaults 0, 0, current_sprint + 10 and Backlog substituted
for its four optional fields. -/
theorem c2_missing_field_handling_amended (initiative : Initiative)
    (current_sprint avg_velocity velocity_std team_utilization : ℚ) :
    (initiative.impact_score = none →
      calculate_priority_score initiative = Except.error "impact_score")
    ∧ (∀ x : ℚ, initiative.impact_score = some x → initiative.effort_score = none →
      calculate_priority_score initiative = Except.error "effort_score")
    ∧ calculate_initiative_risk_score initiative
        current_sprint avg_velocity velocity_std team_utilization
      = calculate_initiative_risk_score (fillRiskDefaults initiative current_sprint)
        current_sprint avg_velocity velocity_std team_utilization := by
  refine ⟨?_, ?_, ?_⟩
  · intro h
    simp [calculate_priority_score, dictIndex, h, Bind.bind, Except.bind]
  · intro x hx h
    simp [calculate_priority_score, dictIndex, hx, h, Bind.bind, Except.bind]
  · simp [calculate_initiative_risk_score, fillRiskDefaults]

/-- Witness for the amended C2 at a concrete record with a missing
impact_score. -/
theorem c2_missing_field_handling_amended_witness :
    c2NoImpactRecord.impact_score = none
    ∧ calculate_priority_score c2NoImpactRecord = Except.error "impact_score" :=
  ⟨rfl, (c2_missing_field_handling_amended c2NoImpactRecord 0 0 0 0).1 rfl⟩

/-- Capacity risk is clamped to [0, 1] whenever the remaining points are
nonnegative. -/
theorem capacity_risk_factor_bounds (remaining_points capacity_available : ℚ)
    (hrem : 0 ≤ remaining_points) :
    0 ≤ capacity_risk_factor remaining_points capacity_available
    ∧ capacity_risk_factor remaining_points capacity_available ≤ 1 := by
  unfold capacity_risk_factor
  split_ifs with h
  · exact ⟨le_min (by norm_num) (div_nonneg (div_nonneg hrem h.le) (by norm_num)),
      min_le_left _ _⟩
  · norm_num

/-- Volatility risk is clamped to [0, 1] whenever the velocity standard
deviation is nonnegative. -/
theorem volatility_risk_factor_bounds (avg_velocity velocity_std : ℚ)
    (hstd : 0 ≤ velocity_std) :
    0 ≤ volatility_risk_factor avg_velocity velocity_std
    ∧ volatility_risk_factor avg_velocity velocity_std ≤ 1 := by
  unfold volatility_risk_factor
  split_ifs with h
  · exact ⟨le_min (by norm_num) (div_nonneg (div_nonneg hstd h.le) (by norm_num)),
      min_le_left _ _⟩
  · norm_num

/-- Utilization risk only takes the values 0.9, 0.5, 0.2 and 0.4, all in
[0, 1]. -/
theorem utilization_risk_factor_bounds (team_utilization : ℚ) :
    0 ≤ utilization_risk_factor team_utilization
    ∧ utilization_risk_factor team_utilization ≤ 1 := by
  unfold utilization_risk_factor
  split_ifs <;> norm_num

/-- Progress risk only takes the values 0.8, 0.6, 0.2, 0.1 and 0.5, all in
[0, 1]. -/
theorem progress_risk_factor_bounds (status : String)
    (total_points completed_points sprints_available : ℚ) :
    0 ≤ progress_risk_factor status total_points completed_points sprints_available
    ∧ progress_risk_factor status total_points completed_points sprints_available ≤ 1 := by
  unfold progress_risk_factor
  refine ⟨?_, ?_⟩ <;> split_ifs <;> try norm_num
  all_goals split_ifs <;> norm_num

/-- C4: for every non-terminal initiative (status, after the Backlog
default, neither Completed nor Deprioritized) and all inputs with a
nonnegative average velocity and velocity standard deviation, the four
sub-factor scores of calculate_initiative_risk_score all lie in [0, 1],
and so does the composite risk score (the sub-factor weights 0.35, 0.25,
0.25, 0.15 sum to 1). -/
theorem c4_risk_score_bounds (initiative : Initiative)
    (current_sprint avg_velocity velocity_std team_utilization : ℚ)
    (hstatus : ¬ (initiative.status.getD "Backlog" = "Completed"
      ∨ initiative.status.getD "Backlog" = "Deprioritized"))
    (hav : 0 ≤ avg_velocity) (hstd : 0 ≤ velocity_std) :
    ∃ f : RiskFactors,
      (calculate_initiative_risk_score initiative
          current_sprint avg_velocity velocity_std team_utilization).factors = some f
      ∧ 0 ≤ f.capacity_risk ∧ f.capacity_risk ≤ 1
      ∧ 0 ≤ f.volatility_risk ∧ f.volatility_risk ≤ 1
      ∧ 0 ≤ f.utilization_risk ∧ f.utilization_risk ≤ 1
      ∧ 0 ≤ f.progress_risk ∧ f.progress_risk ≤ 1
      ∧ 0 ≤ (calculate_initiative_risk_score initiative
          current_sprint avg_velocity velocity_std team_utilization).risk_score
      ∧ (calculate_initiative_risk_score initiative
          current_sprint avg_velocity velocity_std team_utilization).risk_score ≤ 1 := by
  have hcap := capacity_risk_factor_bounds
    (max 0 (initiative.total_story_points.getD 0 - initiative.completed_story_points.getD 0))
    (avg_velocity * max 1 (initiative.target_sprint.getD (current_sprint + 10) - current_sprint))
    (le_max_left 0 _)
  have hvol := volatility_risk_factor_bounds avg_velocity velocity_std hstd
  have hutil := utilization_risk_factor_bounds team_utilization
  have hprog := progress_risk_factor_bounds (initiative.status.getD "Backlog")
    (initiative.total_story_points.getD 0) (initiative.completed_story_points.getD 0)
    (max 1 (initiative.target_sprint.getD (current_sprint + 10) - current_sprint))
  simp only [calculate_initiative_risk_score]
  rw [if_neg hstatus]
  refine ⟨_, rfl, hcap.1, hcap.2, hvol.1, hvol.2, hutil.1, hutil.2, hprog.1, hprog.2,
    ?_, ?_⟩
  · have := hcap.1; have := hvol.1; have := hutil.1; have := hprog.1
    dsimp only
    linarith
  · have := hcap.2; have := hvol.2; have := hutil.2; have := hprog.2
    dsimp only
    linarith

/-- Witness for C4 at a concrete Active initiative. -/
theorem c4_risk_score_bounds_witness :
    ¬ (c4ActiveRecord.status.getD "Backlog" = "Completed"
      ∨ c4ActiveRecord.status.getD "Backlog" = "Deprioritized")
    ∧ (0:ℚ) ≤ 40 ∧ (0:ℚ) ≤ 4
    ∧ ∃ f : RiskFactors,
      (calculate_initiative_risk_score c4ActiveRecord 4 40 4 (9/10)).factors = some f
      ∧ 0 ≤ f.capacity_risk ∧ f.capacity_risk ≤ 1
      ∧ 0 ≤ f.volatility_risk ∧ f.volatility_risk ≤ 1
      ∧ 0 ≤ f.utilization_risk ∧ f.utilization_risk ≤ 1
      ∧ 0 ≤ f.progress_risk ∧ f.progress_risk ≤ 1
      ∧ 0 ≤ (calculate_initiative_risk_score c4ActiveRecord 4 40 4 (9/10)).risk_score
      ∧ (calculate_initiative_risk_score c4ActiveRecord 4 40 4 (9/10)).risk_score ≤ 1 :=
  ⟨by decide, by norm_num, by norm_num,
    c4_risk_score_bounds c4ActiveRecord 4 40 4 (9/10) (by decide) (by norm_num) (by norm_num)⟩

/-- C3: with the historical velocities and the seeded random draw fixed,
the completion probability of predict_sprint_completion_probability is
monotonically non-increasing in the committed points: demanding more never
raises the success probability.  (In the short-history fallback both sides
are the constant 0.5.) -/
theorem c3_probability_monotone_in_committed
    (historical_velocities raw_normal_sample : List ℚ) (n_simulations : ℕ)
    (c1 c2 : ℚ) (h : c1 ≤ c2) :
    (predict_sprint_completion_probability c2 historical_velocities
        raw_normal_sample n_simulations).probability
      ≤ (predict_sprint_completion_probability c1 historical_velocities
        raw_normal_sample n_simulations).probability := by
  unfold predict_sprint_completion_probability
  split_ifs with hl
  · norm_num
  · dsimp only
    have hcount : (raw_normal_sample.map (fun v => max v 0)).countP
          (fun v => decide (c2 ≤ v))
        ≤ (raw_normal_sample.map (fun v => max v 0)).countP
          (fun v => decide (c1 ≤ v)) := by
      apply List.countP_mono_left
      intro x _ hx
      simp only [decide_eq_true_eq] at hx ⊢
      linarith
    exact div_le_div_of_nonneg_right (by exact_mod_cast hcount)
      (Nat.cast_nonneg n_simulations)

/-- Witness for C3 at a fixed history, draw and committed pair. -/
theorem c3_probability_monotone_witness :
    (30:ℚ) ≤ 36
    ∧ (predict_sprint_completion_probability 36 [30, 34] [28, 35, 40] 3).probability
      ≤ (predict_sprint_completion_probability 30 [30, 34] [28, 35, 40] 3).probability :=
  ⟨by norm_num,
    c3_probability_monotone_in_committed [30, 34] [28, 35, 40] 3 30 36 (by norm_num)⟩

/-- C7 counterexample: with an empty velocity history (fewer than 2
samples) and the default 1000 simulations, the returned simulated-velocity
sample is empty, not of length n_simulations, exactly as the fallback
clause of the spec itself describes. -/
theorem c7_fallback_empty_sample_counterexample :
    (predict_sprint_completion_probability 10 []
        (List.replicate 1000 37) 1000).simulated_velocities.length = 0
    ∧ (0 : ℕ) ≠ 1000 := by
  constructor
  · rfl
  · norm_num

/-- C7 (amended): whenever at least 2 historical velocity samples exist
(so the Monte Carlo branch runs) and the random draw has length
n_simulations (as numpy guarantees), the returned simulated-velocity
sample has length exactly n_simulations and every value in it is
nonnegative; with fewer than 2 samples the returned sample is empty. -/
theorem c7_sample_length_and_nonneg_amended (committed_points : ℚ)
    (historical_velocities raw_normal_sample : List ℚ) (n_simulations : ℕ)
    (hh : 2 ≤ historical_velocities.length)
    (hr : raw_normal_sample.length = n_simulations) :
    (predict_sprint_completion_probability committed_points historical_velocities
        raw_normal_sample n_simulations).simulated_velocities.length = n_simulations
    ∧ ∀ v ∈ (predict_sprint_completion_probability committed_points historical_velocities
        raw_normal_sample n_simulations).simulated_velocities, 0 ≤ v := by
  unfold predict_sprint_completion_probability
  rw [if_neg (by omega)]
  refine ⟨by simpa using hr, ?_⟩
  intro v hv
  simp only [List.mem_map] at hv
  obtain ⟨x, _, rfl⟩ := hv
  exact le_max_right x 0

/-- Witness for the amended C7 at a concrete history and draw containing a
negative raw value. -/
theorem c7_sample_length_and_nonneg_witness :
    2 ≤ ([30, 34] : List ℚ).length
    ∧ ([28, -5, 40] : List ℚ).length = 3
    ∧ (predict_sprint_completion_probability 10 [30, 34]
        [28, -5, 40] 3).simulated_velocities.length = 3
    ∧ ∀ v ∈ (predict_sprint_completion_probability 10 [30, 34]
        [28, -5, 40] 3).simulated_velocities, 0 ≤ v :=
  ⟨by norm_num, by norm_num,
    (c7_sample_length_and_nonneg_amended 10 [30, 34] [28, -5, 40] 3
      (by norm_num) (by norm_num)).1,
    (c7_sample_length_and_nonneg_amended 10 [30, 34] [28, -5, 40] 3
      (by norm_num) (by norm_num)).2⟩

/-- Reading index i of a list built by mapping a function over
List.range n, for i below n. -/
theorem getD_range_map (f : ℕ → ℚ) (n i : ℕ) (hi : i < n) :
    ((List.range n).map f).getD i 0 = f i := by
  rw [List.getD_eq_getElem?_getD, List.getElem?_eq_getElem (by simpa using hi)]
  simp

/-- C9: with fewer than 3 historical velocity points,
forecast_velocity_next_n_sprints returns flat forecast, lower-bound and
upper-bound arrays of length n_sprints, every entry equal respectively to
the history mean (40 when the history is empty), 0.8 times it and 1.2
times it. -/
theorem c9_flat_fallback_forecast (velocities sprint_numbers : List ℚ)
    (slope intercept r_value std_velocity : ℚ) (n_sprints : ℕ)
    (hlen : velocities.length < 3) (hn : 1 ≤ n_sprints) :
    (forecast_velocity_next_n_sprints velocities sprint_numbers
        slope intercept r_value std_velocity n_sprints).forecast
      = List.replicate n_sprints (if 0 < velocities.length then mean velocities else 40)
    ∧ (forecast_velocity_next_n_sprints velocities sprint_numbers
        slope intercept r_value std_velocity n_sprints).lower_bound
      = List.replicate n_sprints
        ((if 0 < velocities.length then mean velocities else 40) * (4/5))
    ∧ (forecast_velocity_next_n_sprints velocities sprint_numbers
        slope intercept r_value std_velocity n_sprints).upper_bound
      = List.replicate n_sprints
        ((if 0 < velocities.length then mean velocities else 40) * (6/5)) := by
  unfold forecast_velocity_next_n_sprints
  rw [if_pos hlen]
  exact ⟨rfl, rfl, rfl⟩

/-- Witness for C9 at a two-point history. -/
theorem c9_flat_fallback_forecast_witness :
    ([10, 20] : List ℚ).length < 3
    ∧ 1 ≤ 2
    ∧ (forecast_velocity_next_n_sprints [10, 20] [1, 2] 0 0 0 0 2).forecast
      = List.replicate 2 (if 0 < ([10, 20] : List ℚ).length then mean [10, 20] else 40)
    ∧ (forecast_velocity_next_n_sprints [10, 20] [1, 2] 0 0 0 0 2).lower_bound
      = List.replicate 2
        ((if 0 < ([10, 20] : List ℚ).length then mean [10, 20] else 40) * (4/5))
    ∧ (forecast_velocity_next_n_sprints [10, 20] [1, 2] 0 0 0 0 2).upper_bound
      = List.replicate 2
        ((if 0 < ([10, 20] : List ℚ).length then mean [10, 20] else 40) * (6/5)) :=
  ⟨by norm_num, by norm_num,
    (c9_flat_fallback_forecast [10, 20] [1, 2] 0 0 0 0 2 (by norm_num) (by norm_num)).1,
    (c9_flat_fallback_forecast [10, 20] [1, 2] 0 0 0 0 2 (by norm_num) (by norm_num)).2.1,
    (c9_flat_fallback_forecast [10, 20] [1, 2] 0 0 0 0 2 (by norm_num) (by norm_num)).2.2⟩

/-- C10: with at least 3 historical velocity points and a nonnegative
velocity standard deviation (true of np.std), every forecast horizon i
below n_sprints satisfies lower_bound[i] <= forecast[i] <= upper_bound[i]
with forecast[i] in [20, 60], lower_bound[i] >= 15 and
upper_bound[i] <= 70; the three arrays have length n_sprints. -/
theorem c10_forecast_band_bounds (velocities sprint_numbers : List ℚ)
    (slope intercept r_value std_velocity : ℚ) (n_sprints i : ℕ)
    (hlen : 3 ≤ velocities.length) (hstd : 0 ≤ std_velocity) (hi : i < n_sprints) :
    (forecast_velocity_next_n_sprints velocities sprint_numbers
        slope intercept r_value std_velocity n_sprints).forecast.length = n_sprints
    ∧ (forecast_velocity_next_n_sprints velocities sprint_numbers
        slope intercept r_value std_velocity n_sprints).lower_bound.length = n_sprints
    ∧ (forecast_velocity_next_n_sprints velocities sprint_numbers
        slope intercept r_value std_velocity n_sprints).upper_bound.length = n_sprints
    ∧ 15 ≤ (forecast_velocity_next_n_sprints velocities sprint_numbers
        slope intercept r_value std_velocity n_sprints).lower_bound.getD i 0
    ∧ (forecast_velocity_next_n_sprints velocities sprint_numbers
        slope intercept r_value std_velocity n_sprints).lower_bound.getD i 0
      ≤ (forecast_velocity_next_n_sprints velocities sprint_numbers
        slope intercept r_value std_velocity n_sprints).forecast.getD i 0
    ∧ 20 ≤ (forecast_velocity_next_n_sprints velocities sprint_numbers
        slope intercept r_value std_velocity n_sprints).forecast.getD i 0
    ∧ (forecast_velocity_next_n_sprints velocities sprint_numbers
        slope intercept r_value std_velocity n_sprints).forecast.getD i 0 ≤ 60
    ∧ (forecast_velocity_next_n_sprints velocities sprint_numbers
        slope intercept r_value std_velocity n_sprints).forecast.getD i 0
      ≤ (forecast_velocity_next_n_sprints velocities sprint_numbers
        slope intercept r_value std_velocity n_sprints).upper_bound.getD i 0
    ∧ (forecast_velocity_next_n_sprints velocities sprint_numbers
        slope intercept r_value std_velocity n_sprints).upper_bound.getD i 0 ≤ 70 := by
  have hnot : ¬ velocities.length < 3 := by omega
  unfold forecast_velocity_next_n_sprints
  rw [if_neg hnot]
  dsimp only
  simp only [List.map_map, List.length_map, List.length_range]
  rw [getD_range_map _ _ _ hi, getD_range_map _ _ _ hi, getD_range_map _ _ _ hi]
  dsimp only [Function.comp]
  refine ⟨trivial, trivial, trivial, le_max_left _ _, ?_, le_max_left _ _, ?_, ?_,
    min_le_left _ _⟩
  · apply max_le
    · exact le_trans (by norm_num) (le_max_left 20 _)
    · have : 0 ≤ (3/2 : ℚ) * std_velocity := by linarith
      linarith [le_max_left (20:ℚ) (min 60 (if 1/2 < |r_value| then
        (7/10) * (slope * (sprint_numbers.getLastD 0 + ((i : ℚ) + 1)) + intercept) +
          (3/10) * mean (velocities.drop (velocities.length - 5))
        else (3/10) * (slope * (sprint_numbers.getLastD 0 + ((i : ℚ) + 1)) + intercept) +
          (7/10) * mean (velocities.drop (velocities.length - 5))))]
  · exact max_le (by norm_num) (min_le_left _ _)
  · apply le_min
    · exact le_trans (max_le (by norm_num) (min_le_left _ _)) (by norm_num)
    · have : 0 ≤ (3/2 : ℚ) * std_velocity := by linarith
      linarith

/-- Witness for C10 at a concrete three-point history. -/
theorem c10_forecast_band_bounds_witness :
    3 ≤ ([30, 32, 31] : List ℚ).length
    ∧ (0:ℚ) ≤ 2
    ∧ 0 < 1
    ∧ 15 ≤ (forecast_velocity_next_n_sprints [30, 32, 31] [1, 2, 3]
        1 0 0 2 1).lower_bound.getD 0 0
    ∧ (forecast_velocity_next_n_sprints [30, 32, 31] [1, 2, 3]
        1 0 0 2 1).forecast.getD 0 0 ≤ 60 :=
  ⟨by norm_num, by norm_num, by norm_num,
    (c10_forecast_band_bounds [30, 32, 31] [1, 2, 3] 1 0 0 2 1 0
      (by norm_num) (by norm_num) (by norm_num)).2.2.2.1,
    (c10_forecast_band_bounds [30, 32, 31] [1, 2, 3] 1 0 0 2 1 0
      (by norm_num) (by norm_num) (by norm_num)).2.2.2.2.2.2.1⟩

/-- Every record produced by add_priority_scores carries the pd.cut tier
of its own score. -/
theorem add_priority_scores_tier_eq (initiatives : List Initiative)
    (out : List PriorityRecord) (p : PriorityRecord)
    (hout : add_priority_scores initiatives = Except.ok out) (hp : p ∈ out) :
    p.priority_tier = priorityTier p.priority_score := by
  unfold add_priority_scores at hout
  cases h : initiatives.mapM calculate_priority_score with
  | error e =>
      rw [h] at hout
      exact absurd hout (by simp [Bind.bind, Except.bind])
  | ok scores =>
      rw [h] at hout
      simp only [Bind.bind, Except.bind, pure, Except.pure, Except.ok.injEq] at hout
      subst hout
      simp only [List.mem_map] at hp
      obtain ⟨s, _, rfl⟩ := hp
      rfl

/-- The pd.cut bins of priorityTier, characterized on positive scores. -/
theorem priorityTier_bins (s : ℚ) (hs : 0 < s) :
    (priorityTier s = some "Low" ↔ s ≤ 3/2)
    ∧ (priorityTier s = some "Medium" ↔ 3/2 < s ∧ s ≤ 5/2)
    ∧ (priorityTier s = some "High" ↔ 5/2 < s) := by
  unfold priorityTier
  by_cases h1 : s ≤ 3/2
  · rw [if_pos ⟨hs, h1⟩]
    refine ⟨by simp [h1], ?_, ?_⟩
    · simp only [Option.some.injEq]
      constructor
      · intro hx
        exact absurd hx (by decide)
      · intro hx
        linarith [hx.1]
    · simp only [Option.some.injEq]
      constructor
      · intro hx
        exact absurd hx (by decide)
      · intro hx
        linarith
  · push_neg at h1
    by_cases h2 : s ≤ 5/2
    · rw [if_neg (by rintro ⟨-, hc⟩; linarith), if_pos ⟨h1, h2⟩]
      refine ⟨?_, by simp [h1, h2], ?_⟩
      · simp only [Option.some.injEq]
        constructor
        · intro hx
          exact absurd hx (by decide)
        · intro hx
          linarith
      · simp only [Option.some.injEq]
        constructor
        · intro hx
          exact absurd hx (by decide)
        · intro hx
          linarith
    · push_neg at h2
      rw [if_neg (by rintro ⟨-, hc⟩; linarith), if_neg (by rintro ⟨-, hc⟩; linarith),
        if_pos h2]
      refine ⟨?_, ?_, by simp [h2]⟩
      · simp only [Option.some.injEq]
        constructor
        · intro hx
          exact absurd hx (by decide)
        · intro hx
          linarith
      · simp only [Option.some.injEq]
        constructor
        · intro hx
          exact absurd hx (by decide)
        · intro hx
          linarith [hx.2]

/-- C8 counterexample: on the record whose effort_score is 0 the priority
score is exactly 0 and add_priority_scores assigns it no tier at all
(pd.cut leaves the left edge of its first bin (0, 1.5] out), so the tier
is not one of Low, Medium, High as the claim requires for score 0. -/
theorem c8_zero_score_no_tier_counterexample :
    add_priority_scores [c8ZeroEffortRecord]
      = Except.ok [{ priority_score := 0, priority_rank := 1, priority_tier := none }]
    ∧ ∀ t ∈ (["Low", "Medium", "High"] : List String),
        ¬ ({ priority_score := 0, priority_rank := 1,
             priority_tier := none } : PriorityRecord).priority_tier = some t := by
  constructor
  · simp [add_priority_scores, c8ZeroEffortRecord, calculate_priority_score, dictIndex,
      List.mapM.loop, Bind.bind, Except.bind, pure, Except.pure,
      priorityTier, List.dedup, List.pwFilter, List.filter]
    norm_num
  · intro t _
    simp

/-- C8 (amended): every priority record produced by add_priority_scores
whose score is strictly positive receives exactly one of the tiers Low,
Medium, High, by the bins (0, 1.5] Low, (1.5, 2.5] Medium, (2.5, inf)
High, inclusive on the upper edge; a score of exactly 0 (which arises when
effort_score = 0) receives no tier. -/
theorem c8_tier_bins_amended (initiatives : List Initiative)
    (out : List PriorityRecord) (p : PriorityRecord)
    (hout : add_priority_scores initiatives = Except.ok out) (hp : p ∈ out)
    (hpos : 0 < p.priority_score) :
    (p.priority_tier = some "Low" ↔ p.priority_score ≤ 3/2)
    ∧ (p.priority_tier = some "Medium" ↔ 3/2 < p.priority_score ∧ p.priority_score ≤ 5/2)
    ∧ (p.priority_tier = some "High" ↔ 5/2 < p.priority_score) := by
  rw [add_priority_scores_tier_eq initiatives out p hout hp]
  exact priorityTier_bins p.priority_score hpos

/-- Witness for the amended C8 at a record scoring (8/2) x 1.5 = 6, tier
High. -/
theorem c8_tier_bins_amended_witness :
    add_priority_scores [c8WitnessRecord] = Except.ok [c8WitnessOutRecord]
    ∧ (0:ℚ) < c8WitnessOutRecord.priority_score
    ∧ (c8WitnessOutRecord.priority_tier = some "High"
        ↔ 5/2 < c8WitnessOutRecord.priority_score) := by
  have hout : add_priority_scores [c8WitnessRecord] = Except.ok [c8WitnessOutRecord] := by
    simp [add_priority_scores, c8WitnessRecord, c8WitnessOutRecord,
      calculate_priority_score, dictIndex, STRATEGIC_WEIGHTS, ROI_MULTIPLIERS,
      List.mapM.loop, Bind.bind, Except.bind, pure, Except.pure, priorityTier,
      List.dedup, List.pwFilter, List.filter]
    norm_num [priorityTier]
  refine ⟨hout, by norm_num [c8WitnessOutRecord], ?_⟩
  exact (c8_tier_bins_amended [c8WitnessRecord] _ _ hout (by simp)
    (by norm_num [c8WitnessOutRecord])).2.2

/-- The final capacity_used of the allocation walk equals the starting
value plus the total points allocated. -/
theorem allocateWalk_sum_eq (rows : List PendingRow)
    (available_capacity capacity_used : ℚ) :
    (allocateWalk rows available_capacity capacity_used).2
      = capacity_used
        + allocatedPointsSum (allocateWalk rows available_capacity capacity_used).1 := by
  induction rows generalizing capacity_used with
  | nil => simp [allocateWalk, allocatedPointsSum]
  | cons r rest ih =>
    simp only [allocateWalk]
    split_ifs with h1 h2
    · simp only [allocatedPointsSum, List.map_cons, List.sum_cons, fullEntry]
      rw [show (allocateWalk rest available_capacity (capacity_used + r.remaining_points)).2
          = (capacity_used + r.remaining_points)
            + allocatedPointsSum
              (allocateWalk rest available_capacity (capacity_used + r.remaining_points)).1
        from ih _]
      unfold allocatedPointsSum
      ring
    · simp only [allocatedPointsSum, List.map_cons, List.map_nil, List.sum_cons,
        List.sum_nil, overflowEntry]
      ring
    · exact ih capacity_used

/-- The allocation walk never pushes capacity_used above the available
capacity. -/
theorem allocateWalk_used_le (rows : List PendingRow)
    (available_capacity capacity_used : ℚ) (h : capacity_used ≤ available_capacity) :
    (allocateWalk rows available_capacity capacity_used).2 ≤ available_capacity := by
  induction rows generalizing capacity_used with
  | nil => simpa [allocateWalk] using h
  | cons r rest ih =>
    simp only [allocateWalk]
    split_ifs with h1 h2
    · exact ih _ h1
    · simp
    · exact ih _ h

/-- When every remaining-points value is nonnegative, the running
capacity_used of the walk never decreases. -/
theorem capacityUsedTrace_chain : ∀ (rows : List PendingRow) (a u : ℚ), u ≤ a →
    (∀ r ∈ rows, 0 ≤ r.remaining_points) →
    List.Chain' (fun x y => x ≤ y) (u :: capacityUsedTrace rows a u)
  | [], _, _, _, _ => by simp [capacityUsedTrace]
  | r :: rest, a, u, h, hrem => by
    have hr : 0 ≤ r.remaining_points := hrem r (List.mem_cons_self r rest)
    have hrest : ∀ x ∈ rest, 0 ≤ x.remaining_points :=
      fun x hx => hrem x (List.mem_cons_of_mem r hx)
    simp only [capacityUsedTrace]
    split_ifs with h1 h2
    · exact List.chain'_cons.mpr
        ⟨by linarith, capacityUsedTrace_chain rest a _ h1 hrest⟩
    · exact List.chain'_cons.mpr ⟨h, by simp⟩
    · exact List.chain'_cons.mpr ⟨le_refl u, capacityUsedTrace_chain rest a u h hrest⟩

/-- C5 counterexample: on two Active pending initiatives where the second
(lower-priority) one has completed_story_points above total_story_points,
simulate_capacity_allocation allocates its negative remaining points, and
the running capacity_used falls from 5 to 2: it is not monotonically
non-decreasing as initiatives are processed in priority order. -/
theorem c5_negative_remaining_counterexample :
    simulate_capacity_allocation c5OverCompletedInitiatives [10, 10, 10] 1
      = Except.ok c5Plan
    ∧ capacityUsedTrace c5SortedRows 10 0 = [5, 2]
    ∧ ¬ ((5:ℚ) ≤ 2) := by
  refine ⟨?_, ?_, by norm_num⟩
  · simp [simulate_capacity_allocation, c5OverCompletedInitiatives, c5Plan, mean,
      calculate_priority_score, dictIndex, STRATEGIC_WEIGHTS, ROI_MULTIPLIERS,
      List.mapM.loop, Bind.bind, Except.bind, pure, Except.pure, List.filter,
      sortByScoreDesc, insertByScoreDesc, allocateWalk, fullEntry, overflowEntry]
    norm_num [allocateWalk, fullEntry, overflowEntry, List.filter_cons]
  · simp [capacityUsedTrace, c5SortedRows]
    norm_num

/-- C5 (amended): for every pending-row list and nonnegative available
capacity, the walk of simulate_capacity_allocation allocates at most
available_capacity points in total and reports capacity_used at most
available_capacity; and provided every pending initiative has nonnegative
remaining points (completed_story_points at most total_story_points), the
running capacity_used is monotonically non-decreasing along the walk. -/
theorem c5_allocation_caps_amended (rows : List PendingRow)
    (available_capacity : ℚ) (hcap : 0 ≤ available_capacity) :
    allocatedPointsSum (allocateWalk rows available_capacity 0).1 ≤ available_capacity
    ∧ (allocateWalk rows available_capacity 0).2 ≤ available_capacity
    ∧ ((∀ r ∈ rows, 0 ≤ r.remaining_points) →
        List.Chain' (fun x y => x ≤ y)
          ((0:ℚ) :: capacityUsedTrace rows available_capacity 0)) := by
  have h2 := allocateWalk_used_le rows available_capacity 0 hcap
  have h1 := allocateWalk_sum_eq rows available_capacity 0
  exact ⟨by linarith, h2,
    fun hrem => capacityUsedTrace_chain rows available_capacity 0 hcap hrem⟩

/-- Witness for the amended C5 on a single pending row. -/
theorem c5_allocation_caps_amended_witness :
    (0:ℚ) ≤ 10
    ∧ allocatedPointsSum (allocateWalk [c5WitnessRow] 10 0).1 ≤ 10
    ∧ (allocateWalk [c5WitnessRow] 10 0).2 ≤ 10
    ∧ List.Chain' (fun x y => x ≤ y)
        ((0:ℚ) :: capacityUsedTrace [c5WitnessRow] 10 0) :=
  ⟨by norm_num,
    (c5_allocation_caps_amended [c5WitnessRow] 10 (by norm_num)).1,
    (c5_allocation_caps_amended [c5WitnessRow] 10 (by norm_num)).2.1,
    (c5_allocation_caps_amended [c5WitnessRow] 10 (by norm_num)).2.2 (by
      intro r hr
      rcases List.mem_singleton.mp hr with rfl
      norm_num [c5WitnessRow])⟩

/-- C6 counterexample: with a budget of 10 and sorted remaining points
10, 5, 0, the first initiative consumes the budget exactly; Beta, the
first initiative that does not fit, receives no partial entry and does not
stop the walk (the break in the source sits inside the
points_available > 0 branch), and Gamma is still considered and allocated
after it, contradicting the claimed stop after the first non-fit. -/
theorem c6_continue_after_nonfit_counterexample :
    simulate_capacity_allocation c6ExactFitInitiatives [10, 10, 10] 1
      = Except.ok c6Plan
    ∧ c6Plan.allocated_initiatives.map (fun e => e.initiative_id)
      = ["INIT-A", "INIT-C"]
    ∧ ¬ ((10:ℚ) + 5 ≤ 10) := by
  refine ⟨?_, ?_, by norm_num⟩
  · simp [simulate_capacity_allocation, c6ExactFitInitiatives, c6Plan, mean,
      calculate_priority_score, dictIndex, STRATEGIC_WEIGHTS, ROI_MULTIPLIERS,
      List.mapM.loop, Bind.bind, Except.bind, pure, Except.pure, List.filter,
      sortByScoreDesc, insertByScoreDesc, allocateWalk, fullEntry, overflowEntry]
    norm_num [insertByScoreDesc, allocateWalk, fullEntry, overflowEntry, List.filter_cons]
  · simp [c6Plan]

/-- C6 (amended): the walk of simulate_capacity_allocation is exactly the
first-fit-by-priority walk with the zero-budget correction: an initiative
whose remaining points fit within the remaining budget is fully allocated;
an initiative that does not fit while the remaining budget is positive is
partially allocated up to that budget and the walk stops; an initiative
that does not fit while the remaining budget is zero or negative is
skipped with no entry and the walk continues with the later initiatives. -/
theorem c6_first_fit_walk_amended (rows : List PendingRow)
    (available_capacity capacity_used : ℚ) :
    allocateWalk rows available_capacity capacity_used
      = specFirstFitWalk rows available_capacity capacity_used := by
  induction rows generalizing capacity_used with
  | nil => rfl
  | cons r rest ih =>
    simp only [allocateWalk, specFirstFitWalk]
    by_cases h1 : capacity_used + r.remaining_points ≤ available_capacity
    · rw [if_pos h1,
        if_pos (by linarith :
          r.remaining_points ≤ available_capacity - capacity_used), ih]
    · have hs : ¬ r.remaining_points ≤ available_capacity - capacity_used := by
        intro hc
        exact h1 (by linarith)
      rw [if_neg h1, if_neg hs]
      by_cases h2 : 0 < available_capacity - capacity_used
      · rw [if_pos h2, if_pos h2]
      · rw [if_neg h2, if_neg h2, ih]

end PortfolioAnalytics
